import Mathlib

/-!
Verification of the handle-ownership and dual-path console I/O core of the
`win32console` crate, shallowly embedded in Lean.

Source files embedded here:
* `src/structs/handle.rs` — `Handle` / `RawHandle` with an ownership tag and a
  `Drop` impl that calls `CloseHandle` when the handle is owned;
* `src/console.rs` — `WinConsole`, a facade holding one `Handle`, with the
  dual-path (console device vs. redirected file) read/write operations.

The native Win32 boundary (`GetConsoleMode`, `WriteFile`, `WriteConsoleA/W`,
`ReadFile`, `ReadConsoleW`, `ReadConsoleInputW`, `PeekConsoleInputW`,
`GetStdHandle`, `SetStdHandle`, `CloseHandle`) is modelled as an oracle state
(`OsState`): each native call is a pure function of the handle and the request,
and every embedded operation also returns the list of native calls it issued,
so that "no native call is made" and "which raw handle was passed to the OS"
are provable properties.
-/

set_option maxRecDepth 4000

namespace Win32Console

/-- `INVALID_HANDLE_VALUE` sentinel (`(HANDLE)-1` on Windows). -/
def INVALID_HANDLE_VALUE : Int := -1

/-- `HandleOwnership` from `handle.rs`: `Owned` handles are closed on drop,
`Shared` handles are not. -/
inductive HandleOwnership
  | Owned
  | Shared
deriving DecidableEq

/-- `Handle` from `handle.rs`. The Rust type wraps a `RawHandle { handle, ownership }`;
both layers derive `Clone`, so we flatten them into one structure whose (derived)
`Clone` copies both fields. -/
structure Handle where
  handle : Int
  ownership : HandleOwnership
deriving DecidableEq

/-- `Handle::from_raw`: wraps a raw handle with `Shared` ownership. -/
def Handle.from_raw (h : Int) : Handle := ⟨h, HandleOwnership.Shared⟩

/-- `Handle::new_closeable`: wraps a raw handle with `Owned` ownership
(closed by `CloseHandle` when dropped). -/
def Handle.new_closeable (h : Int) : Handle := ⟨h, HandleOwnership.Owned⟩

/-- Modelled from the spec: `Handle::new_owned` is called by `console.rs`
(e.g. for the `CONIN$` / `CONOUT$` device handles) but is absent from the
`handle.rs` in `src/`; the spec's `create_owned(raw)` wraps `raw` with
ownership = Owned, identical to `new_closeable`. -/
def Handle.new_owned (h : Int) : Handle := ⟨h, HandleOwnership.Owned⟩

/-- Modelled from the spec: `Handle::new` is called by
`WinConsole::get_std_handle` but is absent from the `handle.rs` in `src/`;
the spec says querying a standard-handle slot produces a Shared handle. -/
def Handle.new (h : Int) : Handle := ⟨h, HandleOwnership.Shared⟩

/-- `Handle::is_valid`: compares the raw handle against `INVALID_HANDLE_VALUE`. -/
def Handle.is_valid (h : Handle) : Bool := h.handle ≠ INVALID_HANDLE_VALUE

/-- `Handle::get_raw`: read-only access to the raw handle. -/
def Handle.get_raw (h : Handle) : Int := h.handle

/-- The derived `Clone` of `Handle`/`RawHandle`: a field-by-field copy,
ownership tag included. -/
def Handle.clone (h : Handle) : Handle := ⟨h.handle, h.ownership⟩

/-- Counting model of the OS layer for handle release: how many times
`CloseHandle` has been invoked on each raw handle value. -/
structure OsCounters where
  closeCalls : Int → Nat

/-- Fresh OS layer: no `CloseHandle` call recorded yet. -/
def OsCounters.init : OsCounters := ⟨fun _ => 0⟩

/-- `impl Drop for RawHandle` from `handle.rs`: if the ownership tag is
`Owned`, `CloseHandle(self.handle)` is invoked (and its success asserted);
if `Shared`, nothing happens. -/
def rawHandleDrop (h : Handle) (os : OsCounters) : OsCounters :=
  if h.ownership = HandleOwnership.Owned then
    { closeCalls := fun r => if r = h.handle then os.closeCalls r + 1 else os.closeCalls r }
  else os

/-- Rust's move discipline runs `drop` exactly once per logical value; a list of
logical `Handle` values that reach the end of their lifetime is therefore
dropped value by value. -/
def dropAll (hs : List Handle) (os : OsCounters) : OsCounters :=
  hs.foldl (fun s h => rawHandleDrop h s) os

/-! ## Text encodings

`String::from_utf8` / `String::from_utf16` validation and the crate's own
`WinConsole::utf16_to_utf8` conversion, embedded over `List Nat` buffers. -/

/-- A UTF-8 continuation byte (`0x80 ..= 0xBF`). -/
def isCont (b : Nat) : Bool := decide (0x80 ≤ b ∧ b ≤ 0xBF)

/-- Well-formed UTF-8, as validated by Rust's `String::from_utf8`. -/
def utf8Valid : List Nat → Bool
  | [] => true
  | b :: rest =>
    if b ≤ 0x7F then utf8Valid rest
    else if 0xC2 ≤ b ∧ b ≤ 0xDF then
      match rest with
      | b2 :: rest2 => isCont b2 && utf8Valid rest2
      | [] => false
    else if 0xE0 ≤ b ∧ b ≤ 0xEF then
      match rest with
      | b2 :: b3 :: rest3 =>
        (if b = 0xE0 then decide (0xA0 ≤ b2 ∧ b2 ≤ 0xBF)
         else if b = 0xED then decide (0x80 ≤ b2 ∧ b2 ≤ 0x9F)
         else isCont b2) && isCont b3 && utf8Valid rest3
      | _ => false
    else if 0xF0 ≤ b ∧ b ≤ 0xF4 then
      match rest with
      | b2 :: b3 :: b4 :: rest4 =>
        (if b = 0xF0 then decide (0x90 ≤ b2 ∧ b2 ≤ 0xBF)
         else if b = 0xF4 then decide (0x80 ≤ b2 ∧ b2 ≤ 0x8F)
         else isCont b2) && isCont b3 && isCont b4 && utf8Valid rest4
      | _ => false
    else false

/-- `char::decode_utf16`, run to completion as `String::from_utf16` does:
returns the decoded scalar values, or `none` at the first unpaired surrogate. -/
def decodeUtf16Chars : List Nat → Option (List Nat)
  | [] => some []
  | u :: rest =>
    if u < 0xD800 ∨ 0xDFFF < u then
      (decodeUtf16Chars rest).map (fun cs => u :: cs)
    else if u ≤ 0xDBFF then
      match rest with
      | u2 :: rest2 =>
        if 0xDC00 ≤ u2 ∧ u2 ≤ 0xDFFF then
          (decodeUtf16Chars rest2).map
            (fun cs => (0x10000 + (u - 0xD800) * 0x400 + (u2 - 0xDC00)) :: cs)
        else none
      | [] => none
    else none

/-- `char::encode_utf8`: the UTF-8 bytes of a scalar value. -/
def encodeUtf8Char (c : Nat) : List Nat :=
  if c < 0x80 then [c]
  else if c < 0x800 then [0xC0 + c / 64, 0x80 + c % 64]
  else if c < 0x10000 then [0xE0 + c / 4096, 0x80 + (c / 64) % 64, 0x80 + c % 64]
  else [0xF0 + c / 262144, 0x80 + (c / 4096) % 64, 0x80 + (c / 64) % 64, 0x80 + c % 64]

/-- Outcome of `WinConsole::utf16_to_utf8`: the bytes written to the
destination, an `InvalidData` error at the first undecodable unit, or a panic
(`char::encode_utf8` panics when the remaining destination slice is smaller
than the encoded character). -/
inductive ConvResult
  | ok (bytes : List Nat)
  | invalidData
  | panicked
deriving DecidableEq

/-- Prefix the successfully converted bytes with the current character's
encoding; errors and panics pass through. -/
def ConvResult.prepend (bytes : List Nat) : ConvResult → ConvResult
  | ConvResult.ok bs => ConvResult.ok (bytes ++ bs)
  | r => r

/-- The iteration of `WinConsole::utf16_to_utf8`, threading the remaining
destination space: for each decoded char, encode into `destination[written..]`
(panicking if it does not fit); stop with `InvalidData` at a decode error. -/
def utf16ToUtf8Go (space : Nat) : List Nat → ConvResult
  | [] => ConvResult.ok []
  | u :: rest =>
    if u < 0xD800 ∨ 0xDFFF < u then
      if space < (encodeUtf8Char u).length then ConvResult.panicked
      else
        ConvResult.prepend (encodeUtf8Char u)
          (utf16ToUtf8Go (space - (encodeUtf8Char u).length) rest)
    else if u ≤ 0xDBFF then
      match rest with
      | u2 :: rest2 =>
        if 0xDC00 ≤ u2 ∧ u2 ≤ 0xDFFF then
          if space < (encodeUtf8Char
              (0x10000 + (u - 0xD800) * 0x400 + (u2 - 0xDC00))).length then
            ConvResult.panicked
          else
            ConvResult.prepend
              (encodeUtf8Char (0x10000 + (u - 0xD800) * 0x400 + (u2 - 0xDC00)))
              (utf16ToUtf8Go (space - (encodeUtf8Char
                (0x10000 + (u - 0xD800) * 0x400 + (u2 - 0xDC00))).length) rest2)
        else ConvResult.invalidData
      | [] => ConvResult.invalidData
    else ConvResult.invalidData

/-! ## The OS oracle and the `WinConsole` endpoint -/

/-- `HandleType` from `console.rs`: the three standard-handle roles. -/
inductive HandleType
  | Input
  | Output
  | Error
deriving DecidableEq

/-- A zero-initialized native `INPUT_RECORD`: `EventType` and payload fields
all zero. Valid event types are `KEY_EVENT = 1`, `MOUSE_EVENT = 2`,
`WINDOW_BUFFER_SIZE_EVENT = 4`, `MENU_EVENT = 8`, `FOCUS_EVENT = 16`. -/
structure NativeInputRecord where
  eventType : Nat
  payload : Nat
deriving DecidableEq

def zeroNativeRecord : NativeInputRecord := ⟨0, 0⟩

/-- `InputRecord` from `input_record.rs` (payloads abstracted to one number,
since the claims only concern the tag dispatch). -/
inductive InputRecord
  | KeyEvent (payload : Nat)
  | MouseEvent (payload : Nat)
  | WindowBufferSizeEvent (payload : Nat)
  | FocusEvent (payload : Nat)
  | MenuEvent (payload : Nat)
deriving DecidableEq

/-- `mem::zeroed::<InputRecord>()`: the all-zero bit pattern is the first
variant with a zero payload. -/
def zeroInputRecord : InputRecord := InputRecord.KeyEvent 0

/-- `impl From<INPUT_RECORD> for InputRecord`: dispatch on `EventType`;
any other tag (notably the zero tag of a zero-initialized record) hits the
`unreachable!` arm, i.e. panics — modelled as `none`. -/
def inputRecordFromNative (r : NativeInputRecord) : Option InputRecord :=
  if r.eventType = 1 then some (InputRecord.KeyEvent r.payload)
  else if r.eventType = 2 then some (InputRecord.MouseEvent r.payload)
  else if r.eventType = 4 then some (InputRecord.WindowBufferSizeEvent r.payload)
  else if r.eventType = 16 then some (InputRecord.FocusEvent r.payload)
  else if r.eventType = 8 then some (InputRecord.MenuEvent r.payload)
  else none

/-- The loop `for i in 0..num_records { records[i] = buf[i].into() }`:
converts every native record, panicking (`none`) at the first invalid tag. -/
def convertAll : List NativeInputRecord → Option (List InputRecord)
  | [] => some []
  | r :: rest =>
    match inputRecordFromNative r, convertAll rest with
    | some a, some as_ => some (a :: as_)
    | _, _ => none

/-- One native Win32 call issued by an operation, with the raw handle passed. -/
inductive NativeCall
  | getConsoleMode (handle : Int)
  | writeFile (handle : Int) (len : Nat)
  | writeConsoleA (handle : Int) (len : Nat)
  | writeConsoleW (handle : Int) (len : Nat)
  | readFile (handle : Int) (len : Nat)
  | readConsoleW (handle : Int) (len : Nat)
  | readConsoleInputW (handle : Int) (len : Nat)
  | peekConsoleInputW (handle : Int) (len : Nat)
deriving DecidableEq

/-- The raw handle a native call acts on. -/
def NativeCall.rawOf : NativeCall → Int
  | NativeCall.getConsoleMode h => h
  | NativeCall.writeFile h _ => h
  | NativeCall.writeConsoleA h _ => h
  | NativeCall.writeConsoleW h _ => h
  | NativeCall.readFile h _ => h
  | NativeCall.readConsoleW h _ => h
  | NativeCall.readConsoleInputW h _ => h
  | NativeCall.peekConsoleInputW h _ => h

/-- The OS boundary as an oracle: the standard-handle table plus, for each
native call family, the result the OS would report (`none` = the call fails,
setting a last error). `readConsoleResult` takes the wake mask and yields the
units the console delivers; `readInputResult` / `peekInputResult` yield the
delivered event records. -/
structure OsState where
  stdHandles : HandleType → Int
  isConsoleHandle : Int → Bool
  writeFileResult : Int → Nat → Option Nat
  writeConsoleResult : Int → Nat → Option Nat
  readFileResult : Int → Nat → Option Nat
  readConsoleResult : Int → Nat → Nat → Option (List Nat)
  readInputResult : Int → Nat → Option (List NativeInputRecord)
  peekInputResult : Int → Nat → Option (List NativeInputRecord)

/-- Operation outcome: `Ok(value)`, a returned `io::Error` of the given kind,
or a panic / failed assertion. -/
inductive IoErr
  | invalidInput
  | invalidData
  | osError
deriving DecidableEq

inductive Outcome (α : Type)
  | ok (value : α)
  | err (e : IoErr)
  | panicked
deriving DecidableEq

/-- `WinConsole` from `console.rs`: the endpoint holds one `Handle`, fixed at
construction (`pub struct WinConsole(Handle)`). -/
structure WinConsole where
  handle : Handle
deriving DecidableEq

/-- `WinConsole::get_handle`: returns the stored handle (`&self.0`). -/
def WinConsole.get_handle (c : WinConsole) : Handle := c.handle

/-- `WinConsole::is_console`: probes the handle with `GetConsoleMode`. -/
def WinConsole.is_console (os : OsState) (handle : Handle) : Bool :=
  os.isConsoleHandle handle.handle

/-- `WinConsole::get_std_handle`: `GetStdHandle` then the invalid-handle check. -/
def WinConsole.get_std_handle (os : OsState) (t : HandleType) : Outcome Handle :=
  let raw := os.stdHandles t
  if raw = INVALID_HANDLE_VALUE then Outcome.err IoErr.osError
  else Outcome.ok (Handle.new raw)

/-- `WinConsole::set_std_handle`: `SetStdHandle` rebinds the role's slot. -/
def WinConsole.set_std_handle (os : OsState) (t : HandleType) (h : Handle) : OsState :=
  { os with stdHandles := fun t2 => if t2 = t then h.handle else os.stdHandles t2 }

/-- `WinConsole::input()`: `WinConsole(get_std_handle(Input).unwrap())`;
the `unwrap` turns the error case into a panic. -/
def WinConsole.input (os : OsState) : Outcome WinConsole :=
  match WinConsole.get_std_handle os HandleType.Input with
  | Outcome.ok h => Outcome.ok ⟨h⟩
  | _ => Outcome.panicked

/-- `WinConsole::output()`. -/
def WinConsole.output (os : OsState) : Outcome WinConsole :=
  match WinConsole.get_std_handle os HandleType.Output with
  | Outcome.ok h => Outcome.ok ⟨h⟩
  | _ => Outcome.panicked

/-- `WinConsole::with_handle`. -/
def WinConsole.with_handle (h : Handle) : WinConsole := ⟨h⟩

/-- The Ctrl-Z ("substitute") control character and the wake mask
`read_utf16` installs for it. -/
def CTRL_Z : Nat := 0x1A
def CTRL_Z_MASK : Nat := 2 ^ 0x1A

/-- `ConsoleReadControl` from `console_read_control.rs`. -/
structure ConsoleReadControl where
  size : Nat
  initial_chars : Nat
  ctrl_wakeup_mask : Nat
  control_key_state : Nat
deriving DecidableEq

/-- `ConsoleReadControl::new_with_mask`. -/
def ConsoleReadControl.new_with_mask (mask : Nat) : ConsoleReadControl :=
  ⟨16, 0, mask, 0⟩

/-! ### Write operations -/

/-- `WinConsole::write_utf8`. Empty input returns `Ok(0)` with no native call.
Redirected path: validate `String::from_utf8`, call `WriteFile`, and on success
return `Ok(data.len())` — the reported written count is discarded. Console
path: `WriteConsoleA`; on success `assert_eq!(chars_written, data.len())`. -/
def WinConsole.write_utf8 (os : OsState) (c : WinConsole) (data : List Nat) :
    Outcome Nat × List NativeCall :=
  if data.length = 0 then (Outcome.ok 0, [])
  else
    let handle := c.get_handle
    if ¬ WinConsole.is_console os handle then
      if utf8Valid data then
        match os.writeFileResult handle.handle data.length with
        | none => (Outcome.err IoErr.osError,
            [NativeCall.getConsoleMode handle.handle,
             NativeCall.writeFile handle.handle data.length])
        | some _ => (Outcome.ok data.length,
            [NativeCall.getConsoleMode handle.handle,
             NativeCall.writeFile handle.handle data.length])
      else (Outcome.err IoErr.invalidInput, [NativeCall.getConsoleMode handle.handle])
    else
      match os.writeConsoleResult handle.handle data.length with
      | none => (Outcome.err IoErr.osError,
          [NativeCall.getConsoleMode handle.handle,
           NativeCall.writeConsoleA handle.handle data.length])
      | some n =>
        (if n = data.length then Outcome.ok n else Outcome.panicked,
         [NativeCall.getConsoleMode handle.handle,
          NativeCall.writeConsoleA handle.handle data.length])

/-- `WinConsole::write_utf16`; as `write_utf8` with `String::from_utf16`
validation on the redirected path and `WriteConsoleW` on the console path. -/
def WinConsole.write_utf16 (os : OsState) (c : WinConsole) (data : List Nat) :
    Outcome Nat × List NativeCall :=
  if data.length = 0 then (Outcome.ok 0, [])
  else
    let handle := c.get_handle
    if ¬ WinConsole.is_console os handle then
      if (decodeUtf16Chars data).isSome then
        match os.writeFileResult handle.handle data.length with
        | none => (Outcome.err IoErr.osError,
            [NativeCall.getConsoleMode handle.handle,
             NativeCall.writeFile handle.handle data.length])
        | some _ => (Outcome.ok data.length,
            [NativeCall.getConsoleMode handle.handle,
             NativeCall.writeFile handle.handle data.length])
      else (Outcome.err IoErr.invalidInput, [NativeCall.getConsoleMode handle.handle])
    else
      match os.writeConsoleResult handle.handle data.length with
      | none => (Outcome.err IoErr.osError,
          [NativeCall.getConsoleMode handle.handle,
           NativeCall.writeConsoleW handle.handle data.length])
      | some n =>
        (if n = data.length then Outcome.ok n else Outcome.panicked,
         [NativeCall.getConsoleMode handle.handle,
          NativeCall.writeConsoleW handle.handle data.length])

/-! ### Read operations

Each read returns `(outcome, buffer after the call, native calls issued)`. -/

/-- `WinConsole::read_utf16`. Redirected path: `String::from_utf16` of the
buffer's PRIOR contents (failing with `InvalidInput` before any read); then
`ReadFile` reads into that temporary string, which is discarded — the caller's
buffer is never written — and the OS-reported count is returned. Console path:
`ReadConsoleW` with the Ctrl-Z wake mask; afterwards, if the LAST unit read is
Ctrl-Z the count is decremented by one. -/
def WinConsole.read_utf16 (os : OsState) (c : WinConsole) (buffer : List Nat) :
    Outcome Nat × List Nat × List NativeCall :=
  if buffer.length = 0 then (Outcome.ok 0, buffer, [])
  else
    let handle := c.get_handle
    if ¬ WinConsole.is_console os handle then
      if (decodeUtf16Chars buffer).isSome then
        match os.readFileResult handle.handle buffer.length with
        | none => (Outcome.err IoErr.osError, buffer,
            [NativeCall.getConsoleMode handle.handle,
             NativeCall.readFile handle.handle buffer.length])
        | some n => (Outcome.ok n, buffer,
            [NativeCall.getConsoleMode handle.handle,
             NativeCall.readFile handle.handle buffer.length])
      else (Outcome.err IoErr.invalidInput, buffer,
        [NativeCall.getConsoleMode handle.handle])
    else
      match os.readConsoleResult handle.handle buffer.length CTRL_Z_MASK with
      | none => (Outcome.err IoErr.osError, buffer,
          [NativeCall.getConsoleMode handle.handle,
           NativeCall.readConsoleW handle.handle buffer.length])
      | some delivered =>
        let units := delivered.take buffer.length
        let newBuffer := units ++ buffer.drop units.length
        let charsRead := units.length
        let count :=
          if 0 < charsRead ∧ newBuffer.getD (charsRead - 1) 0 = CTRL_Z
          then charsRead - 1 else charsRead
        (Outcome.ok count, newBuffer,
         [NativeCall.getConsoleMode handle.handle,
          NativeCall.readConsoleW handle.handle buffer.length])

/-- `WinConsole::read_utf16_with_control`: as `read_utf16` with the caller's
control (whose wake mask is passed to `ReadConsoleW`) and without the trailing
Ctrl-Z adjustment. -/
def WinConsole.read_utf16_with_control (os : OsState) (c : WinConsole)
    (buffer : List Nat) (control : ConsoleReadControl) :
    Outcome Nat × List Nat × List NativeCall :=
  if buffer.length = 0 then (Outcome.ok 0, buffer, [])
  else
    let handle := c.get_handle
    if ¬ WinConsole.is_console os handle then
      if (decodeUtf16Chars buffer).isSome then
        match os.readFileResult handle.handle buffer.length with
        | none => (Outcome.err IoErr.osError, buffer,
            [NativeCall.getConsoleMode handle.handle,
             NativeCall.readFile handle.handle buffer.length])
        | some n => (Outcome.ok n, buffer,
            [NativeCall.getConsoleMode handle.handle,
             NativeCall.readFile handle.handle buffer.length])
      else (Outcome.err IoErr.invalidInput, buffer,
        [NativeCall.getConsoleMode handle.handle])
    else
      match os.readConsoleResult handle.handle buffer.length control.ctrl_wakeup_mask with
      | none => (Outcome.err IoErr.osError, buffer,
          [NativeCall.getConsoleMode handle.handle,
           NativeCall.readConsoleW handle.handle buffer.length])
      | some delivered =>
        let units := delivered.take buffer.length
        let newBuffer := units ++ buffer.drop units.length
        (Outcome.ok units.length, newBuffer,
         [NativeCall.getConsoleMode handle.handle,
          NativeCall.readConsoleW handle.handle buffer.length])

/-- `WinConsole::utf16_to_utf8 (source, destination)`, with `destination`
abstracted to its length. -/
def WinConsole.utf16_to_utf8 (source : List Nat) (destLen : Nat) : ConvResult :=
  utf16ToUtf8Go destLen source

/-- `WinConsole::read_utf8`: read into a zeroed UTF-16 buffer of the same
length (discarding the returned count), then convert the WHOLE UTF-16 buffer
into the byte buffer and return the number of bytes produced. -/
def WinConsole.read_utf8 (os : OsState) (c : WinConsole) (buffer : List Nat) :
    Outcome Nat × List Nat × List NativeCall :=
  if buffer.length = 0 then (Outcome.ok 0, buffer, [])
  else
    let r := WinConsole.read_utf16 os c (List.replicate buffer.length 0)
    match r.1 with
    | Outcome.err e => (Outcome.err e, buffer, r.2.2)
    | Outcome.panicked => (Outcome.panicked, buffer, r.2.2)
    | Outcome.ok _ =>
      match WinConsole.utf16_to_utf8 r.2.1 buffer.length with
      | ConvResult.ok bytes =>
        (Outcome.ok bytes.length, bytes ++ buffer.drop bytes.length, r.2.2)
      | ConvResult.invalidData => (Outcome.err IoErr.invalidData, buffer, r.2.2)
      | ConvResult.panicked => (Outcome.panicked, buffer, r.2.2)

/-- `WinConsole::read_utf8_with_control`: as `read_utf8` but the UTF-16 count
IS the value returned (the conversion's byte count is discarded). -/
def WinConsole.read_utf8_with_control (os : OsState) (c : WinConsole)
    (buffer : List Nat) (control : ConsoleReadControl) :
    Outcome Nat × List Nat × List NativeCall :=
  if buffer.length = 0 then (Outcome.ok 0, buffer, [])
  else
    let r := WinConsole.read_utf16_with_control os c
      (List.replicate buffer.length 0) control
    match r.1 with
    | Outcome.err e => (Outcome.err e, buffer, r.2.2)
    | Outcome.panicked => (Outcome.panicked, buffer, r.2.2)
    | Outcome.ok written =>
      match WinConsole.utf16_to_utf8 r.2.1 buffer.length with
      | ConvResult.ok bytes =>
        (Outcome.ok written, bytes ++ buffer.drop bytes.length, r.2.2)
      | ConvResult.invalidData => (Outcome.err IoErr.invalidData, buffer, r.2.2)
      | ConvResult.panicked => (Outcome.panicked, buffer, r.2.2)

/-- `WinConsole::read_string`: `read_utf16` into a 4096-unit zeroed buffer,
then `String::from_utf16(&buffer[..chars_read])`, surfacing a decode failure
as an `InvalidData` error. The result is the list of decoded scalar values. -/
def WinConsole.read_string (os : OsState) (c : WinConsole) :
    Outcome (List Nat) × List NativeCall :=
  let r := WinConsole.read_utf16 os c (List.replicate 4096 0)
  match r.1 with
  | Outcome.err e => (Outcome.err e, r.2.2)
  | Outcome.panicked => (Outcome.panicked, r.2.2)
  | Outcome.ok n =>
    match decodeUtf16Chars (r.2.1.take n) with
    | some cs => (Outcome.ok cs, r.2.2)
    | none => (Outcome.err IoErr.invalidData, r.2.2)

/-! ### Input-record operations -/

/-- `WinConsole::read_input`: zero-length buffer returns `Ok(0)` with no
native call. Otherwise `ReadConsoleInputW` into a zeroed native buffer of the
same length; on success, `debug_assert!(num_events > 0)`, then EVERY slot of
the native buffer (zero-initialized tail included) is converted through
`InputRecord::from`, which panics on an invalid tag; the event count is
returned. -/
def WinConsole.read_input (os : OsState) (c : WinConsole)
    (records : List InputRecord) :
    Outcome Nat × List InputRecord × List NativeCall :=
  if records.length = 0 then (Outcome.ok 0, records, [])
  else
    let h := c.get_handle.handle
    let n := records.length
    match os.readInputResult h n with
    | none => (Outcome.err IoErr.osError, records, [NativeCall.readConsoleInputW h n])
    | some events =>
      let delivered := events.take n
      let buf := delivered ++ List.replicate (n - delivered.length) zeroNativeRecord
      if delivered.length = 0 then
        (Outcome.panicked, records, [NativeCall.readConsoleInputW h n])
      else
        match convertAll buf with
        | none => (Outcome.panicked, records, [NativeCall.readConsoleInputW h n])
        | some recs =>
          (Outcome.ok delivered.length, recs, [NativeCall.readConsoleInputW h n])

/-- `WinConsole::peek_input`: as `read_input` but via `PeekConsoleInputW`. -/
def WinConsole.peek_input (os : OsState) (c : WinConsole)
    (records : List InputRecord) :
    Outcome Nat × List InputRecord × List NativeCall :=
  if records.length = 0 then (Outcome.ok 0, records, [])
  else
    let h := c.get_handle.handle
    let n := records.length
    match os.peekInputResult h n with
    | none => (Outcome.err IoErr.osError, records, [NativeCall.peekConsoleInputW h n])
    | some events =>
      let delivered := events.take n
      let buf := delivered ++ List.replicate (n - delivered.length) zeroNativeRecord
      if delivered.length = 0 then
        (Outcome.panicked, records, [NativeCall.peekConsoleInputW h n])
      else
        match convertAll buf with
        | none => (Outcome.panicked, records, [NativeCall.peekConsoleInputW h n])
        | some recs =>
          (Outcome.ok delivered.length, recs, [NativeCall.peekConsoleInputW h n])

/-- `WinConsole::read_input_n`: `buffer_size == 0` returns `Ok(vec![])`;
otherwise a zeroed `Vec<InputRecord>` of length `buffer_size` is filled by
`read_input`, whose count is discarded (`?` then `Ok(buffer)`), and the whole
buffer is returned. -/
def WinConsole.read_input_n (os : OsState) (c : WinConsole) (bufferSize : Nat) :
    Outcome (List InputRecord) × List NativeCall :=
  if bufferSize = 0 then (Outcome.ok [], [])
  else
    let buffer := List.replicate bufferSize zeroInputRecord
    let r := WinConsole.read_input os c buffer
    match r.1 with
    | Outcome.ok _ => (Outcome.ok r.2.1, r.2.2)
    | Outcome.err e => (Outcome.err e, r.2.2)
    | Outcome.panicked => (Outcome.panicked, r.2.2)

/-! ### Concrete OS states used to instantiate the theorems -/

/-- A redirected (non-console) OS state: the standard handles all point at raw
handle 5, no handle is an interactive console, and every byte-stream call
succeeds reporting the full requested amount. -/
def osDefault : OsState where
  stdHandles := fun _ => 5
  isConsoleHandle := fun _ => false
  writeFileResult := fun _ n => some n
  writeConsoleResult := fun _ n => some n
  readFileResult := fun _ n => some n
  readConsoleResult := fun _ _ _ => some []
  readInputResult := fun _ _ => some []
  peekInputResult := fun _ _ => some []

/-- An endpoint over the shared raw handle 5. -/
def cPipe : WinConsole := ⟨Handle.from_raw 5⟩

/-- A redirected sink that accepts only 3 bytes per `WriteFile` call. -/
def osShortWrite : OsState :=
  { osDefault with writeFileResult := fun _ _ => some 3 }

/-- An interactive-console OS state whose `ReadConsoleW` delivers exactly
`delivered` and whose `WriteConsoleW/A` reports the full length. -/
def osConsoleWith (delivered : List Nat) : OsState :=
  { osDefault with
    isConsoleHandle := fun _ => true
    readConsoleResult := fun _ _ _ => some delivered }

/-- An interactive console whose `WriteConsoleA/W` claims success but reports
only 3 units written. -/
def osConsoleShort : OsState :=
  { osDefault with
    isConsoleHandle := fun _ => true
    writeConsoleResult := fun _ _ => some 3 }

/-- A native key-event record (`EventType = KEY_EVENT`). -/
def keyRec : NativeInputRecord := ⟨1, 7⟩

/-- `ReadConsoleInputW` delivers exactly one key event. -/
def osOneEvent : OsState :=
  { osDefault with readInputResult := fun _ _ => some [keyRec] }

/-- `ReadConsoleInputW` delivers exactly two key events. -/
def osTwoEvents : OsState :=
  { osDefault with readInputResult := fun _ _ => some [keyRec, keyRec] }

/-- `osDefault` after the Input standard-handle slot is rebound to raw 7. -/
def osRebound : OsState :=
  WinConsole.set_std_handle osDefault HandleType.Input (Handle.from_raw 7)

/-! ## Theorems -/

/-- C1: the code violates the exactly-once release invariant. `RawHandle`
derives `Clone` while its `Drop` closes owned handles, so cloning an owned
`Handle` (public, safe API: `Handle` derives `Clone`, as does `WinConsole`)
yields a second `Owned` value over the same raw handle; dropping both releases
the OS resource twice (and the second `CloseHandle`, failing, trips the
`assert!` in `drop`). Shared handles do release zero times, and a single
owned value does release exactly once — but "no double-release" fails. -/
theorem c1_owned_clone_double_release :
    (dropAll [Handle.new_closeable 5, (Handle.new_closeable 5).clone]
      OsCounters.init).closeCalls 5 = 2
    ∧ (dropAll [Handle.new_closeable 5] OsCounters.init).closeCalls 5 = 1
    ∧ (dropAll [Handle.from_raw 5, Handle.from_raw 5] OsCounters.init).closeCalls 5 = 0 := by
  refine ⟨?_, ?_, ?_⟩ <;> decide

/-- C2 (counterexample): the endpoint does NOT re-resolve the standard handle.
`WinConsole::input()` captures the handle current at construction
(raw 5); after `set_std_handle` rebinds the Input slot to raw 7, a read
through the same endpoint still passes raw 5 to every native call, not the
newly bound raw 7. -/
theorem c2_snapshot_counterexample :
    WinConsole.input osDefault = Outcome.ok (WinConsole.with_handle (Handle.new 5))
    ∧ osRebound.stdHandles HandleType.Input = 7
    ∧ (WinConsole.read_utf16 osRebound (WinConsole.with_handle (Handle.new 5)) [0]).2.2 =
        [NativeCall.getConsoleMode 5, NativeCall.readFile 5 1]
    ∧ (5 : Int) ≠ 7 := by
  refine ⟨?_, ?_, ?_, ?_⟩ <;> decide

/-- C3: writing `"Hello"` (5 bytes) to a redirected sink whose `WriteFile`
accepts only 3 bytes succeeds — but the operation returns the FULL requested
length 5, not the short count 3 actually transferred: the redirected branch
of `write_utf8`/`write_utf16` ends in `return Ok(data.len())`, discarding
`chars_written`. -/
theorem c3_redirected_short_write_returns_full_length :
    (WinConsole.write_utf8 osShortWrite cPipe [72, 101, 108, 108, 111]).1 = Outcome.ok 5
    ∧ (WinConsole.write_utf16 osShortWrite cPipe [72, 101, 108, 108, 111]).1 = Outcome.ok 5
    ∧ osShortWrite.writeFileResult 5 5 = some 3
    ∧ (3 : Nat) ≠ 5 := by
  refine ⟨?_, ?_, ?_, ?_⟩ <;> decide

/-- C4: the write/read round-trip through a redirected sink fails. Writing the
byte 65 (`"A"`) succeeds, and the subsequent `read_utf8` on the redirected
handle reports success with count 1 — but the redirected `read_utf16` branch
reads into a discarded temporary, so the returned buffer holds the NUL byte
synthesized from the untouched zeroed UTF-16 buffer, not the byte written. -/
theorem c4_roundtrip_lost :
    (WinConsole.write_utf8 osDefault cPipe [65]).1 = Outcome.ok 1
    ∧ (WinConsole.read_utf8 osDefault cPipe [99]).1 = Outcome.ok 1
    ∧ (WinConsole.read_utf8 osDefault cPipe [99]).2.1 = [0]
    ∧ ([0] : List Nat) ≠ [65] := by
  refine ⟨?_, ?_, ?_, ?_⟩ <;> decide

/-- C5 (counterexample): a console-path read in which the OS delivers
`[65, CTRL_Z, 66]` — Ctrl-Z mid-buffer — returns count 3 with the control
character still present at index 1: `read_utf16` only checks
`buffer[chars_read - 1]`, so nothing is truncated. -/
theorem c5_midbuffer_ctrlz_counterexample :
    (WinConsole.read_utf16 (osConsoleWith [65, 26, 66]) cPipe [0, 0, 0]).1 = Outcome.ok 3
    ∧ (WinConsole.read_utf16 (osConsoleWith [65, 26, 66]) cPipe [0, 0, 0]).2.1 = [65, 26, 66]
    ∧ List.getD [65, 26, 66] 1 0 = CTRL_Z
    ∧ (3 : Nat) ≠ 1 := by
  refine ⟨?_, ?_, ?_, ?_⟩ <;> decide

/-- C8 (counterexample): a console-path `read_utf8` whose raw units
`[0x0800, 0xD800]` contain an unpaired surrogate does NOT fail with a decode
error: the valid unit `0x0800` encodes to 3 UTF-8 bytes, which overflows the
2-byte destination, so `char::encode_utf8` panics before the invalid unit is
reached. -/
theorem c8_panic_counterexample :
    (WinConsole.read_utf8 (osConsoleWith [0x0800, 0xD800]) cPipe [9, 9]).1 = Outcome.panicked
    ∧ decodeUtf16Chars [0x0800, 0xD800] = none
    ∧ Outcome.panicked ≠ (Outcome.err IoErr.invalidData : Outcome Nat) := by
  refine ⟨?_, ?_, ?_⟩ <;> decide

/-- C10 (counterexample): with `n = 2` and the OS delivering exactly one key
event, `read_input_n 2` does not return a length-2 vector with a
zero-initialized tail — converting the zero-initialized second native record
hits the `unreachable!` arm of `InputRecord::from`, so the call panics. -/
theorem c10_short_input_panics_counterexample :
    (WinConsole.read_input_n osOneEvent cPipe 2).1 = Outcome.panicked
    ∧ (WinConsole.read_input_n osOneEvent cPipe 2).1 ≠
        Outcome.ok [InputRecord.KeyEvent 7, zeroInputRecord] := by
  refine ⟨?_, ?_⟩ <;> decide

/-- C7: every read/write operation of the endpoint treats a zero-length
buffer as a no-op: it succeeds with a zero count (or an empty vector), the
buffer is untouched, and the list of native calls issued is empty, for every
OS state, endpoint and read control. -/
theorem c7_zero_length_noop :
    ∀ (os : OsState) (c : WinConsole) (control : ConsoleReadControl),
    WinConsole.write_utf8 os c [] = (Outcome.ok 0, [])
    ∧ WinConsole.write_utf16 os c [] = (Outcome.ok 0, [])
    ∧ WinConsole.read_utf8 os c [] = (Outcome.ok 0, [], [])
    ∧ WinConsole.read_utf16 os c [] = (Outcome.ok 0, [], [])
    ∧ WinConsole.read_utf8_with_control os c [] control = (Outcome.ok 0, [], [])
    ∧ WinConsole.read_utf16_with_control os c [] control = (Outcome.ok 0, [], [])
    ∧ WinConsole.read_input os c [] = (Outcome.ok 0, [], [])
    ∧ WinConsole.peek_input os c [] = (Outcome.ok 0, [], [])
    ∧ WinConsole.read_input_n os c 0 = (Outcome.ok [], []) := by
  intro os c control
  exact ⟨rfl, rfl, rfl, rfl, rfl, rfl, rfl, rfl, rfl⟩

/-- C6: on the console path, a successful `write_utf8`/`write_utf16` of a
non-empty buffer returns exactly the requested number of units; if the native
console write claims success while reporting a different count, the
`assert_eq!` fails (a panic), and a short count is never returned. -/
theorem c6_console_write_exact_or_panic :
    ∀ (os : OsState) (c : WinConsole) (data : List Nat) (m : Nat),
    data.length ≠ 0 →
    WinConsole.is_console os c.get_handle = true →
    ((∀ n, (WinConsole.write_utf8 os c data).1 = Outcome.ok n → n = data.length)
      ∧ (os.writeConsoleResult c.get_handle.handle data.length = some m →
         m ≠ data.length → (WinConsole.write_utf8 os c data).1 = Outcome.panicked))
    ∧ ((∀ n, (WinConsole.write_utf16 os c data).1 = Outcome.ok n → n = data.length)
      ∧ (os.writeConsoleResult c.get_handle.handle data.length = some m →
         m ≠ data.length → (WinConsole.write_utf16 os c data).1 = Outcome.panicked)) := by
  intro os c data m hlen hcons
  rcases hw : os.writeConsoleResult c.get_handle.handle data.length with _ | k
  · have e8 : (WinConsole.write_utf8 os c data).1 = Outcome.err IoErr.osError := by
      simp [WinConsole.write_utf8, hlen, hcons, hw]
    have e16 : (WinConsole.write_utf16 os c data).1 = Outcome.err IoErr.osError := by
      simp [WinConsole.write_utf16, hlen, hcons, hw]
    refine ⟨⟨?_, ?_⟩, ?_, ?_⟩
    · intro n h
      rw [e8] at h
      exact absurd h (by simp)
    · intro hsome
      exact absurd hsome (by simp)
    · intro n h
      rw [e16] at h
      exact absurd h (by simp)
    · intro hsome
      exact absurd hsome (by simp)
  · by_cases hk : k = data.length
    · have e8 : (WinConsole.write_utf8 os c data).1 = Outcome.ok data.length := by
        simp [WinConsole.write_utf8, hlen, hcons, hw, hk]
      have e16 : (WinConsole.write_utf16 os c data).1 = Outcome.ok data.length := by
        simp [WinConsole.write_utf16, hlen, hcons, hw, hk]
      refine ⟨⟨?_, ?_⟩, ?_, ?_⟩
      · intro n h
        rw [e8] at h
        exact (Outcome.ok.inj h).symm
      · intro hsome hne
        exact absurd ((Option.some.inj hsome) ▸ hk) hne
      · intro n h
        rw [e16] at h
        exact (Outcome.ok.inj h).symm
      · intro hsome hne
        exact absurd ((Option.some.inj hsome) ▸ hk) hne
    · have e8 : (WinConsole.write_utf8 os c data).1 = Outcome.panicked := by
        simp [WinConsole.write_utf8, hlen, hcons, hw, hk]
      have e16 : (WinConsole.write_utf16 os c data).1 = Outcome.panicked := by
        simp [WinConsole.write_utf16, hlen, hcons, hw, hk]
      refine ⟨⟨?_, ?_⟩, ?_, ?_⟩
      · intro n h
        rw [e8] at h
        exact absurd h (by simp)
      · intro _ _
        exact e8
      · intro n h
        rw [e16] at h
        exact absurd h (by simp)
      · intro _ _
        exact e16

/-- C6 witness: with the console oracle claiming success but reporting 3 of 5
units written, both writes end in the failed assertion. -/
theorem c6_console_write_witness :
    (WinConsole.write_utf8 osConsoleShort cPipe [72, 101, 108, 108, 111]).1 = Outcome.panicked
    ∧ (WinConsole.write_utf16 osConsoleShort cPipe [72, 101, 108, 108, 111]).1 =
        Outcome.panicked := by
  have h := c6_console_write_exact_or_panic osConsoleShort cPipe [72, 101, 108, 108, 111] 3
    (by decide) (by decide)
  exact ⟨h.1.2 (by decide) (by decide), h.2.2 (by decide) (by decide)⟩

/-- C5 (amended): on the console path, `read_utf16` excludes a Ctrl-Z only
when it is the LAST unit the OS delivered — the count drops by one; a Ctrl-Z
in any earlier position is returned as ordinary data with no truncation. The
buffer always receives exactly the delivered units, Ctrl-Z included. -/
theorem c5_trailing_ctrlz_only :
    ∀ (os : OsState) (c : WinConsole) (buffer delivered : List Nat),
    WinConsole.is_console os c.get_handle = true →
    os.readConsoleResult c.get_handle.handle buffer.length CTRL_Z_MASK = some delivered →
    delivered.length ≤ buffer.length →
    0 < buffer.length →
    (WinConsole.read_utf16 os c buffer).1 =
      Outcome.ok
        (if 0 < delivered.length ∧ delivered.getD (delivered.length - 1) 0 = CTRL_Z
         then delivered.length - 1 else delivered.length)
    ∧ (WinConsole.read_utf16 os c buffer).2.1 = delivered ++ buffer.drop delivered.length := by
  intro os c buffer delivered hcons hr hle hpos
  have hlen0 : ¬ buffer.length = 0 := Nat.pos_iff_ne_zero.mp hpos
  have htake : delivered.take buffer.length = delivered := List.take_of_length_le hle
  constructor
  · simp only [WinConsole.read_utf16, hlen0, hcons, hr, htake, if_neg, Bool.not_true,
      not_false_eq_true, if_false, ite_false, ite_true, not_true_eq_false]
    rcases Nat.eq_zero_or_pos delivered.length with h0 | h0
    · have hdel : delivered = [] := List.length_eq_zero.mp h0
      subst hdel
      simp
    · have hget : (delivered ++ List.drop delivered.length buffer).getD
            (delivered.length - 1) 0 = delivered.getD (delivered.length - 1) 0 :=
        List.getD_append _ _ _ _ (by omega)
      rw [hget]
  · simp only [WinConsole.read_utf16, hlen0, hcons, hr, htake]
    simp [htake]

/-- C5 witness: the OS delivers `[65, CTRL_Z]` into a 3-unit buffer; the
trailing Ctrl-Z is excluded, so the count is 1 and the buffer holds the
delivered units followed by its untouched tail. -/
theorem c5_trailing_ctrlz_witness :
    (WinConsole.read_utf16 (osConsoleWith [65, 26]) cPipe [0, 0, 0]).1 = Outcome.ok 1
    ∧ (WinConsole.read_utf16 (osConsoleWith [65, 26]) cPipe [0, 0, 0]).2.1 = [65, 26, 0] := by
  have h := c5_trailing_ctrlz_only (osConsoleWith [65, 26]) cPipe [0, 0, 0] [65, 26]
    (by decide) (by decide) (by decide) (by decide)
  refine ⟨?_, ?_⟩
  · rw [h.1]; decide
  · rw [h.2]; decide

/-- C9: on a non-console handle, `read_utf16` and `read_utf16_with_control`
never touch the caller's buffer (the bytes `ReadFile` produces land in a
discarded temporary built from the buffer's prior contents, and the
OS-reported count is returned), and they fail with `InvalidInput` — issuing
no `ReadFile` call, only the mode probe — whenever the buffer's pre-existing
contents are not valid UTF-16. -/
theorem c9_redirected_read_frame :
    ∀ (os : OsState) (c : WinConsole) (buffer : List Nat)
      (control : ConsoleReadControl) (n : Nat),
    WinConsole.is_console os c.get_handle = false →
    0 < buffer.length →
    ((WinConsole.read_utf16 os c buffer).2.1 = buffer
      ∧ ((decodeUtf16Chars buffer).isSome = true →
         os.readFileResult c.get_handle.handle buffer.length = some n →
         (WinConsole.read_utf16 os c buffer).1 = Outcome.ok n)
      ∧ (decodeUtf16Chars buffer = none →
         WinConsole.read_utf16 os c buffer =
           (Outcome.err IoErr.invalidInput, buffer,
            [NativeCall.getConsoleMode c.get_handle.handle])))
    ∧ ((WinConsole.read_utf16_with_control os c buffer control).2.1 = buffer
      ∧ ((decodeUtf16Chars buffer).isSome = true →
         os.readFileResult c.get_handle.handle buffer.length = some n →
         (WinConsole.read_utf16_with_control os c buffer control).1 = Outcome.ok n)
      ∧ (decodeUtf16Chars buffer = none →
         WinConsole.read_utf16_with_control os c buffer control =
           (Outcome.err IoErr.invalidInput, buffer,
            [NativeCall.getConsoleMode c.get_handle.handle]))) := by
  intro os c buffer control n hcons hpos
  have hlen0 : ¬ buffer.length = 0 := Nat.pos_iff_ne_zero.mp hpos
  constructor
  · rcases hv : decodeUtf16Chars buffer with _ | cs
    · refine ⟨?_, ?_, ?_⟩
      · simp [WinConsole.read_utf16, hlen0, hcons, hv]
      · intro hs _
        simp at hs
      · intro _
        simp [WinConsole.read_utf16, hlen0, hcons, hv]
    · rcases ho : os.readFileResult c.get_handle.handle buffer.length with _ | k
      · refine ⟨?_, ?_, ?_⟩
        · simp [WinConsole.read_utf16, hlen0, hcons, hv, ho]
        · intro _ hsome
          simp at hsome
        · intro hnone
          simp at hnone
      · refine ⟨?_, ?_, ?_⟩
        · simp [WinConsole.read_utf16, hlen0, hcons, hv, ho]
        · intro _ hsome
          have hkn : k = n := Option.some.inj hsome
          subst hkn
          simp [WinConsole.read_utf16, hlen0, hcons, hv, ho]
        · intro hnone
          simp at hnone
  · rcases hv : decodeUtf16Chars buffer with _ | cs
    · refine ⟨?_, ?_, ?_⟩
      · simp [WinConsole.read_utf16_with_control, hlen0, hcons, hv]
      · intro hs _
        simp at hs
      · intro _
        simp [WinConsole.read_utf16_with_control, hlen0, hcons, hv]
    · rcases ho : os.readFileResult c.get_handle.handle buffer.length with _ | k
      · refine ⟨?_, ?_, ?_⟩
        · simp [WinConsole.read_utf16_with_control, hlen0, hcons, hv, ho]
        · intro _ hsome
          simp at hsome
        · intro hnone
          simp at hnone
      · refine ⟨?_, ?_, ?_⟩
        · simp [WinConsole.read_utf16_with_control, hlen0, hcons, hv, ho]
        · intro _ hsome
          have hkn : k = n := Option.some.inj hsome
          subst hkn
          simp [WinConsole.read_utf16_with_control, hlen0, hcons, hv, ho]
        · intro hnone
          simp at hnone

/-- C9 witness: on the redirected state, a valid 1-unit buffer yields the
`ReadFile`-reported count 1 with the buffer unchanged, and a buffer whose
prior contents are an unpaired surrogate fails with `InvalidInput` after only
the mode probe, in both `read_utf16` and `read_utf16_with_control`. -/
theorem c9_redirected_read_witness :
    (WinConsole.read_utf16 osDefault cPipe [0]).1 = Outcome.ok 1
    ∧ (WinConsole.read_utf16 osDefault cPipe [0]).2.1 = [0]
    ∧ WinConsole.read_utf16 osDefault cPipe [55296] =
        (Outcome.err IoErr.invalidInput, [55296], [NativeCall.getConsoleMode 5])
    ∧ WinConsole.read_utf16_with_control osDefault cPipe [55296]
        (ConsoleReadControl.new_with_mask 0) =
        (Outcome.err IoErr.invalidInput, [55296], [NativeCall.getConsoleMode 5]) := by
  have h1 := c9_redirected_read_frame osDefault cPipe [0]
    (ConsoleReadControl.new_with_mask 0) 1 (by decide) (by decide)
  have h2 := c9_redirected_read_frame osDefault cPipe [55296]
    (ConsoleReadControl.new_with_mask 0) 0 (by decide) (by decide)
  exact ⟨h1.1.2.1 (by decide) (by decide), h1.1.1, h2.1.2.2 (by decide), h2.2.2.2 (by decide)⟩

/-- Inverting `WinConsole::input()`: a successfully constructed endpoint holds
exactly the raw handle that sat in the Input slot at construction time. -/
theorem input_handle_eq :
    ∀ (os : OsState) (c : WinConsole), WinConsole.input os = Outcome.ok c →
      c.get_handle.handle = os.stdHandles HandleType.Input := by
  intro os c hc
  by_cases hraw : os.stdHandles HandleType.Input = INVALID_HANDLE_VALUE
  · simp [WinConsole.input, WinConsole.get_std_handle, hraw] at hc
  · simp [WinConsole.input, WinConsole.get_std_handle, hraw] at hc
    rw [← hc]
    rfl

/-- Every native call issued by `read_utf16` uses the endpoint's stored
handle. -/
theorem read_utf16_calls_use_handle :
    ∀ (os : OsState) (c : WinConsole) (buffer : List Nat),
    ∀ call ∈ (WinConsole.read_utf16 os c buffer).2.2,
      NativeCall.rawOf call = c.get_handle.handle := by
  intro os c buffer call hmem
  by_cases h0 : buffer.length = 0
  · simp [WinConsole.read_utf16, h0] at hmem
  · by_cases hcons : WinConsole.is_console os c.get_handle = true
    · rcases hr : os.readConsoleResult c.get_handle.handle buffer.length CTRL_Z_MASK
        with _ | d
      · simp [WinConsole.read_utf16, h0, hcons, hr] at hmem
        rcases hmem with rfl | rfl <;> rfl
      · simp [WinConsole.read_utf16, h0, hcons, hr] at hmem
        rcases hmem with rfl | rfl <;> rfl
    · rcases hv : decodeUtf16Chars buffer with _ | cs
      · simp [WinConsole.read_utf16, h0, hcons, hv] at hmem
        subst hmem
        rfl
      · rcases ho : os.readFileResult c.get_handle.handle buffer.length with _ | k
        · simp [WinConsole.read_utf16, h0, hcons, hv, ho] at hmem
          rcases hmem with rfl | rfl <;> rfl
        · simp [WinConsole.read_utf16, h0, hcons, hv, ho] at hmem
          rcases hmem with rfl | rfl <;> rfl

/-- C2 (amended): a role-bound `WinConsole` endpoint captures the standard
handle once, at construction. Whatever the standard-handle table looks like
when a later operation runs (`os2` is arbitrary — in particular a state where
the Input slot was rebound), every native call of that operation uses the
construction-time handle; the rebinding is observed only by endpoints
constructed afterwards, which hold the newly bound raw handle. -/
theorem c2_endpoint_uses_construction_handle :
    ∀ (os os2 : OsState) (hnew : Handle) (c c2 : WinConsole) (buffer : List Nat),
    WinConsole.input os = Outcome.ok c →
    WinConsole.input (WinConsole.set_std_handle os HandleType.Input hnew) = Outcome.ok c2 →
    (∀ call ∈ (WinConsole.read_utf16 os2 c buffer).2.2,
      NativeCall.rawOf call = os.stdHandles HandleType.Input)
    ∧ c2.get_handle.handle = hnew.handle := by
  intro os os2 hnew c c2 buffer hc hc2
  constructor
  · intro call hmem
    rw [read_utf16_calls_use_handle os2 c buffer call hmem]
    exact input_handle_eq os c hc
  · rw [input_handle_eq _ c2 hc2]
    simp [WinConsole.set_std_handle]

/-- C2 witness: in the concrete rebound state, the endpoint constructed before
the rebind still drives its native calls at raw handle 5 (the old Input slot),
while an endpoint constructed after the rebind holds raw handle 7. -/
theorem c2_endpoint_witness :
    NativeCall.rawOf (NativeCall.getConsoleMode 5) = osDefault.stdHandles HandleType.Input
    ∧ (WinConsole.with_handle (Handle.new 7)).get_handle.handle = (Handle.from_raw 7).handle := by
  have h := c2_endpoint_uses_construction_handle osDefault osRebound (Handle.from_raw 7)
    (WinConsole.with_handle (Handle.new 5)) (WinConsole.with_handle (Handle.new 7)) [0]
    (by decide) (by decide)
  exact ⟨h.1 (NativeCall.getConsoleMode 5) (by decide), h.2⟩

/-- A successful record conversion preserves the buffer length. -/
theorem convertAll_length :
    ∀ (l : List NativeInputRecord) (recs : List InputRecord),
      convertAll l = some recs → recs.length = l.length := by
  intro l
  induction l with
  | nil =>
    intro recs h
    simp only [convertAll, Option.some.injEq] at h
    rw [← h]
    rfl
  | cons r rest ih =>
    intro recs h
    simp only [convertAll] at h
    rcases hr : inputRecordFromNative r with _ | a
    · rw [hr] at h
      simp at h
    · rw [hr] at h
      rcases hrest : convertAll rest with _ | as_
      · rw [hrest] at h
        simp at h
      · rw [hrest] at h
        simp only [Option.some.injEq] at h
        rw [← h]
        simp [ih as_ hrest]

/-- Converting a buffer with a non-empty zero-initialized tail always panics:
the zero event tag matches no `InputRecord` variant. -/
theorem convertAll_zero_tail_none :
    ∀ (l1 : List NativeInputRecord) (k : Nat), k ≠ 0 →
      convertAll (l1 ++ List.replicate k zeroNativeRecord) = none := by
  intro l1
  induction l1 with
  | nil =>
    intro k hk
    cases k with
    | zero => exact absurd rfl hk
    | succ k2 =>
      simp only [List.nil_append, List.replicate, convertAll]
      rcases h : inputRecordFromNative zeroNativeRecord with _ | a
      · rfl
      · exact absurd h (by simp [inputRecordFromNative, zeroNativeRecord])
  | cons r rest ih =>
    intro k hk
    simp only [List.cons_append, convertAll, List.append_eq]
    rw [ih k hk]
    rcases inputRecordFromNative r with _ | a <;> rfl

/-- Evaluation of `read_input_n` once the native read result is fixed. -/
theorem read_input_n_eq :
    ∀ (os : OsState) (c : WinConsole) (n : Nat) (events : List NativeInputRecord),
    n ≠ 0 →
    os.readInputResult c.get_handle.handle n = some events →
    WinConsole.read_input_n os c n =
      (if (events.take n).length = 0 then
        (Outcome.panicked, [NativeCall.readConsoleInputW c.get_handle.handle n])
      else
        match convertAll (events.take n ++
            List.replicate (n - (events.take n).length) zeroNativeRecord) with
        | none => (Outcome.panicked, [NativeCall.readConsoleInputW c.get_handle.handle n])
        | some recs =>
          (Outcome.ok recs, [NativeCall.readConsoleInputW c.get_handle.handle n])) := by
  intro os c n events hn hr
  simp only [WinConsole.read_input_n, WinConsole.read_input, List.length_replicate,
    hn, hr, if_neg, ite_false, if_false]
  by_cases hd : (events.take n).length = 0
  · simp only [hd, if_pos, ite_true, if_true]
  · simp only [hd, if_neg, ite_false, if_false]
    rcases hca : convertAll (events.take n ++
        List.replicate (n - (events.take n).length) zeroNativeRecord) with _ | recs
    · rfl
    · rfl

/-- C10 (amended): for `n > 0`, a successful `read_input_n n` does return a
vector of length exactly `n` with the event count discarded — but that success
is only possible when the native read delivered exactly `n` events: whenever
fewer events are delivered, the conversion of the first zero-initialized
native record hits `unreachable!`, so the call panics instead of returning
zero-initialized tail entries. -/
theorem c10_full_or_panic :
    ∀ (os : OsState) (c : WinConsole) (n : Nat) (events : List NativeInputRecord),
    n ≠ 0 →
    os.readInputResult c.get_handle.handle n = some events →
    ((∀ v calls, WinConsole.read_input_n os c n = (Outcome.ok v, calls) → v.length = n)
      ∧ (events.length < n → (WinConsole.read_input_n os c n).1 = Outcome.panicked)) := by
  intro os c n events hn hr
  have heq := read_input_n_eq os c n events hn hr
  constructor
  · intro v calls hv
    rw [heq] at hv
    by_cases hd : (events.take n).length = 0
    · rw [if_pos hd] at hv
      exact absurd (congrArg Prod.fst hv) (by simp)
    · rw [if_neg hd] at hv
      rcases hca : convertAll (events.take n ++
          List.replicate (n - (events.take n).length) zeroNativeRecord) with _ | recs
      · rw [hca] at hv
        exact absurd (congrArg Prod.fst hv) (by simp)
      · rw [hca] at hv
        have hvr : recs = v := Outcome.ok.inj (congrArg Prod.fst hv)
        have hlen := convertAll_length _ _ hca
        have htk : (events.take n).length ≤ n := List.length_take_le n events
        rw [← hvr, hlen]
        simp only [List.length_append, List.length_replicate]
        omega
  · intro hlt
    have htake : events.take n = events := List.take_of_length_le (Nat.le_of_lt hlt)
    rw [heq, htake]
    by_cases hd : events.length = 0
    · rw [if_pos hd]
    · rw [if_neg hd,
        convertAll_zero_tail_none events (n - events.length) (by omega)]

/-- C10 witness: with two delivered events, `read_input_n 2` returns the
length-2 converted vector; with one delivered event, it panics. -/
theorem c10_full_or_panic_witness :
    ([InputRecord.KeyEvent 7, InputRecord.KeyEvent 7] : List InputRecord).length = 2
    ∧ (WinConsole.read_input_n osOneEvent cPipe 2).1 = Outcome.panicked := by
  have h2 := c10_full_or_panic osTwoEvents cPipe 2 [keyRec, keyRec] (by decide) (by decide)
  have h1 := c10_full_or_panic osOneEvent cPipe 2 [keyRec] (by decide) (by decide)
  exact ⟨h2.1 [InputRecord.KeyEvent 7, InputRecord.KeyEvent 7]
      [NativeCall.readConsoleInputW 5 2] (by decide),
    h1.2 (by decide)⟩

/-- Fuel-indexed helper for C8: on a source that is not valid UTF-16, the
`utf16_to_utf8` iteration can never return success — it stops with
`InvalidData` at the undecodable unit, or panics earlier on an overfull
destination. -/
theorem utf16_invalid_no_ok :
    ∀ (fuel : Nat) (src : List Nat), src.length ≤ fuel → ∀ (space : Nat),
      decodeUtf16Chars src = none →
      ∀ bytes, utf16ToUtf8Go space src ≠ ConvResult.ok bytes := by
  intro fuel
  induction fuel with
  | zero =>
    intro src hlen space h bytes
    have hnil : src = [] := List.eq_nil_of_length_eq_zero (Nat.le_zero.mp hlen)
    subst hnil
    simp [decodeUtf16Chars] at h
  | succ f ih =>
    intro src hlen space h bytes hok
    rcases src with _ | ⟨u, rest⟩
    · simp [decodeUtf16Chars] at h
    · have hrlen : rest.length ≤ f := by
        simp only [List.length_cons] at hlen
        omega
      by_cases hvalid : u < 0xD800 ∨ 0xDFFF < u
      · have hrest : decodeUtf16Chars rest = none := by
          rw [decodeUtf16Chars.eq_def] at h
          simp only at h
          rw [if_pos hvalid] at h
          exact Option.map_eq_none'.mp h
        rw [utf16ToUtf8Go.eq_def] at hok
        simp only at hok
        rw [if_pos hvalid] at hok
        by_cases hlt : space < (encodeUtf8Char u).length
        · rw [if_pos hlt] at hok
          exact absurd hok (by simp)
        · rw [if_neg hlt] at hok
          cases hr : utf16ToUtf8Go (space - (encodeUtf8Char u).length) rest with
          | ok bs =>
            exact absurd hr (ih rest hrlen _ hrest bs)
          | invalidData =>
            rw [hr] at hok
            simp [ConvResult.prepend] at hok
          | panicked =>
            rw [hr] at hok
            simp [ConvResult.prepend] at hok
      · by_cases hhigh : u ≤ 0xDBFF
        · rcases rest with _ | ⟨u2, rest2⟩
          · rw [utf16ToUtf8Go.eq_def] at hok
            simp only at hok
            rw [if_neg hvalid, if_pos hhigh] at hok
            exact absurd hok (by simp)
          · have hr2len : rest2.length ≤ f := by
              simp only [List.length_cons] at hlen
              omega
            by_cases hlow : 0xDC00 ≤ u2 ∧ u2 ≤ 0xDFFF
            · have hrest2 : decodeUtf16Chars rest2 = none := by
                simp only [decodeUtf16Chars] at h
                rw [if_neg hvalid, if_pos hhigh, if_pos hlow] at h
                exact Option.map_eq_none'.mp h
              simp only [utf16ToUtf8Go] at hok
              rw [if_neg hvalid, if_pos hhigh, if_pos hlow] at hok
              by_cases hlt : space <
                  (encodeUtf8Char (0x10000 + (u - 0xD800) * 0x400 + (u2 - 0xDC00))).length
              · rw [if_pos hlt] at hok
                exact absurd hok (by simp)
              · rw [if_neg hlt] at hok
                cases hr : utf16ToUtf8Go
                    (space - (encodeUtf8Char
                      (0x10000 + (u - 0xD800) * 0x400 + (u2 - 0xDC00))).length) rest2 with
                | ok bs =>
                  exact absurd hr (ih rest2 hr2len _ hrest2 bs)
                | invalidData =>
                  rw [hr] at hok
                  simp [ConvResult.prepend] at hok
                | panicked =>
                  rw [hr] at hok
                  simp [ConvResult.prepend] at hok
            · rw [utf16ToUtf8Go.eq_def] at hok
              simp only at hok
              rw [if_neg hvalid, if_pos hhigh, if_neg hlow] at hok
              exact absurd hok (by simp)
        · rw [utf16ToUtf8Go.eq_def] at hok
          simp only at hok
          rw [if_neg hvalid, if_neg hhigh] at hok
          exact absurd hok (by simp)

/-- Evaluation of `read_utf16` on the console path once the delivered units
are fixed. -/
theorem read_utf16_console_eq :
    ∀ (os : OsState) (c : WinConsole) (buffer delivered : List Nat),
    buffer.length ≠ 0 →
    WinConsole.is_console os c.get_handle = true →
    os.readConsoleResult c.get_handle.handle buffer.length CTRL_Z_MASK = some delivered →
    delivered.length ≤ buffer.length →
    WinConsole.read_utf16 os c buffer =
      (Outcome.ok
        (if 0 < delivered.length ∧
            (delivered ++ buffer.drop delivered.length).getD (delivered.length - 1) 0 = CTRL_Z
         then delivered.length - 1 else delivered.length),
       delivered ++ buffer.drop delivered.length,
       [NativeCall.getConsoleMode c.get_handle.handle,
        NativeCall.readConsoleW c.get_handle.handle buffer.length]) := by
  intro os c buffer delivered hlen hcons hr hle
  have htake : delivered.take buffer.length = delivered := List.take_of_length_le hle
  simp only [WinConsole.read_utf16, hlen, hcons, hr, htake, if_neg, ite_false, if_false,
    Bool.not_true, not_false_eq_true, not_true_eq_false]

/-- Evaluation of `read_string` once the underlying `read_utf16` result is
fixed. -/
theorem read_string_eq_of :
    ∀ (os : OsState) (c : WinConsole) (o : Outcome Nat) (buf : List Nat)
      (calls : List NativeCall),
    WinConsole.read_utf16 os c (List.replicate 4096 0) = (o, buf, calls) →
    WinConsole.read_string os c =
      (match o with
       | Outcome.err e => (Outcome.err e, calls)
       | Outcome.panicked => (Outcome.panicked, calls)
       | Outcome.ok n =>
         match decodeUtf16Chars (buf.take n) with
         | some cs => (Outcome.ok cs, calls)
         | none => (Outcome.err IoErr.invalidData, calls)) := by
  intro os c o buf calls ht
  unfold WinConsole.read_string
  rw [ht]

/-- C8 (amended): raw units that are not valid for the target encoding are
never silently replaced. `read_string` fails with an `InvalidData` error
whenever the units it read are invalid UTF-16; `utf16_to_utf8` (used by
`read_utf8`) never succeeds on a source containing an unpaired surrogate — it
fails with `InvalidData`, or panics first when the UTF-8 expansion of the
preceding valid units overflows the destination buffer. -/
theorem c8_decode_errors_surfaced :
    (∀ (os : OsState) (c : WinConsole) (n : Nat),
      (WinConsole.read_utf16 os c (List.replicate 4096 0)).1 = Outcome.ok n →
      decodeUtf16Chars ((WinConsole.read_utf16 os c (List.replicate 4096 0)).2.1.take n) =
        none →
      (WinConsole.read_string os c).1 = Outcome.err IoErr.invalidData)
    ∧ (∀ (source : List Nat) (destLen : Nat) (bytes : List Nat),
      decodeUtf16Chars source = none →
      WinConsole.utf16_to_utf8 source destLen ≠ ConvResult.ok bytes) := by
  constructor
  · intro os c n h1 h2
    rcases he : WinConsole.read_utf16 os c (List.replicate 4096 0) with ⟨o, buf, calls⟩
    rw [he] at h1 h2
    simp only at h1 h2
    subst h1
    rw [read_string_eq_of os c (Outcome.ok n) buf calls he]
    simp only [h2]
  · intro source destLen bytes hdec
    exact utf16_invalid_no_ok source.length source (le_refl _) destLen hdec bytes

/-- C8 witness: the console delivers a lone high surrogate; `read_string`
fails with `InvalidData`, and `utf16_to_utf8` rejects the same unit. -/
theorem c8_decode_errors_witness :
    (WinConsole.read_string (osConsoleWith [0xD800]) cPipe).1 = Outcome.err IoErr.invalidData
    ∧ WinConsole.utf16_to_utf8 [0xD800] 0 ≠ ConvResult.ok [] := by
  have heq := read_utf16_console_eq (osConsoleWith [0xD800]) cPipe
    (List.replicate 4096 0) [0xD800]
    (by rw [List.length_replicate]; omega) rfl rfl
    (by rw [List.length_replicate]; simp)
  have h1 : (WinConsole.read_utf16 (osConsoleWith [0xD800]) cPipe
      (List.replicate 4096 0)).1 = Outcome.ok 1 := by
    rw [heq]
    decide
  have h2 : decodeUtf16Chars (((WinConsole.read_utf16 (osConsoleWith [0xD800]) cPipe
      (List.replicate 4096 0)).2.1).take 1) = none := by
    rw [heq]
    decide
  exact ⟨c8_decode_errors_surfaced.1 (osConsoleWith [0xD800]) cPipe 1 h1 h2,
    c8_decode_errors_surfaced.2 [0xD800] 0 [] (by decide)⟩

end Win32Console
